import Mathlib

/-!
Verification of the `ahkpy` window/clipboard facade (files `ahkpy/window.py`
and `ahkpy/clipboard.py`) against its natural-language specification.

The Python code is a marshaling layer over a single external dispatch entry
point (`ahk_call`).  The embedding below models:

* Python values crossing the boundary as `PyVal` (with Python truthiness);
* the external automation host as an oracle `Host`: a pure function from a
  command name and positional argument list to a returned `PyVal`, plus the
  ambient `win_delay` setting that the code forwards to `SetWinDelay`
  (the setting itself lives in `ahkpy/settings.py`, outside the modelled
  sources, so it is kept abstract as a field of `Host`);
* every dispatch performed by an operation as an explicit trace
  (`List Call`), so "no host call is made" is the trace being `[]`;
* the three-valued field semantics (`UNSET` marker / `None` / value) of the
  `Windows` query filter as `FieldVal`;
* fallible paths (Python `raise ValueError` in `Windows._call` and the
  opacity setter) as `Except String`.

Host responses are modelled as never raising; the claims below concern the
non-raising host convention (empty-string sentinels, `None` results).
Window identifiers returned by the host are modelled as integers, matching
the data model ("an immutable numeric handle").
-/

/-- A Python value as it crosses the dispatch boundary. -/
inductive PyVal where
  | none
  | bool (b : Bool)
  | int (n : Int)
  | float (q : Rat)
  | str (s : String)
  | dict (entries : List (String × PyVal))

/-- Python truthiness of a `PyVal`. -/
def pyTruthy : PyVal → Bool
  | .none => false
  | .bool b => b
  | .int n => n != 0
  | .float q => q != 0
  | .str s => s != ""
  | .dict es => !es.isEmpty

/-- Python `a or b`. -/
def pyOr (a b : PyVal) : PyVal :=
  if pyTruthy a then a else b

/-- One dispatched host call: command name and positional arguments. -/
abbrev Call := String × List PyVal

/-- The external automation host, as a pure oracle, together with the
`win_delay` value taken from the ambient settings. -/
structure Host where
  call : String → List PyVal → PyVal
  winDelay : PyVal

/-- The three-valued state of a `Windows` dataclass field: the distinguished
`UNSET` marker, an explicit Python `None`, or a set value. -/
inductive FieldVal (α : Type) where
  | unset
  | none
  | val (a : α)
deriving DecidableEq

/-- `TitleMatchMode` enum from `window.py`. -/
inductive TitleMatchMode where
  | startswith
  | contains
  | exact
  | regex
deriving DecidableEq

/-- `TextMatchMode` enum from `window.py`. -/
inductive TextMatchMode where
  | fast
  | slow
deriving DecidableEq

/-- The frozen dataclass `Windows`: an immutable window-query filter. -/
structure Windows where
  title : FieldVal String
  class_name : FieldVal String
  id : FieldVal Int
  pid : FieldVal Int
  exe : FieldVal String
  text : FieldVal String
  exclude_title : FieldVal String
  exclude_text : FieldVal String
  exclude_hidden_windows : FieldVal Bool
  exclude_hidden_text : FieldVal Bool
  title_mode : FieldVal TitleMatchMode
  text_mode : FieldVal TextMatchMode
deriving DecidableEq

/-- The `windows` singleton: `Windows()` with every field left `UNSET`. -/
def windows : Windows :=
  ⟨.unset, .unset, .unset, .unset, .unset, .unset, .unset, .unset, .unset, .unset, .unset, .unset⟩

/-- The `all_windows` singleton: `Windows(exclude_hidden_windows=False)`. -/
def all_windows : Windows :=
  { windows with exclude_hidden_windows := FieldVal.val false }

/-- `default(arg, old, none=UNSET)` from `converters.py` as used by
`Windows.filter`/`Windows.exclude`: an `UNSET` argument keeps the old field,
any other argument (including an explicit `None`) overrides it. -/
def mergeField {α : Type} (arg old : FieldVal α) : FieldVal α :=
  match arg with
  | .unset => old
  | a => a

/-- An argument accepted by the `match` parameter of `Windows.filter`. -/
inductive MatchArg where
  | unset
  | none
  | str (s : String)
  | mode (m : TitleMatchMode)
deriving DecidableEq

/-- Python `str.lower()` on a mode name, modelled as per-character
lowering of the underlying character list. -/
def pyLower (s : String) : String :=
  ⟨s.data.map Char.toLower⟩

/-- `TitleMatchMode(value)` enum lookup by value. -/
def parseTitleMatchMode (s : String) : Option TitleMatchMode :=
  if s = "startswith" then some .startswith
  else if s = "contains" then some .contains
  else if s = "exact" then some .exact
  else if s = "regex" then some .regex
  else Option.none

/-- The `match` argument handling of `Windows.filter`: a string is parsed
case-insensitively (`TitleMatchMode(match.lower())`, raising `ValueError`
on an unknown value), an enum member passes through. -/
def parseMatchArg : MatchArg → Except String (FieldVal TitleMatchMode)
  | .unset => .ok .unset
  | .none => .ok .none
  | .mode m => .ok (.val m)
  | .str s =>
    match parseTitleMatchMode (pyLower s) with
    | some m => .ok (.val m)
    | Option.none => .error ("is not a valid TitleMatchMode: " ++ s)

/-- `Windows.filter`: returns `self` unchanged when every argument is unset,
otherwise a copy merging the given fields over the existing ones. -/
def Windows.filter (f : Windows) (title class_name : FieldVal String)
    (id pid : FieldVal Int) (exe text : FieldVal String) (mtch : MatchArg) :
    Except String Windows :=
  if title = .unset ∧ class_name = .unset ∧ id = .unset ∧ pid = .unset ∧
      exe = .unset ∧ text = .unset ∧ mtch = .unset then
    .ok f
  else
    match parseMatchArg mtch with
    | .error e => .error e
    | .ok parsed =>
      .ok { f with
        title := mergeField title f.title,
        class_name := mergeField class_name f.class_name,
        id := mergeField id f.id,
        pid := mergeField pid f.pid,
        exe := mergeField exe f.exe,
        text := mergeField text f.text,
        title_mode := mergeField parsed f.title_mode }

/-- `Windows.exclude`: analogous merging for the negative filter fields. -/
def Windows.exclude (f : Windows) (title text : FieldVal String)
    (hidden_windows hidden_text : FieldVal Bool) : Windows :=
  if title = .unset ∧ text = .unset ∧ hidden_windows = .unset ∧ hidden_text = .unset then
    f
  else
    { f with
      exclude_title := mergeField title f.exclude_title,
      exclude_text := mergeField text f.exclude_text,
      exclude_hidden_windows := mergeField hidden_windows f.exclude_hidden_windows,
      exclude_hidden_text := mergeField hidden_text f.exclude_hidden_text }

/-- String field rendered inside the include query (absent when unset;
Python renders `None` as the string `"None"`). -/
def fvStrOpt : FieldVal String → Option String
  | .unset => Option.none
  | .none => some "None"
  | .val s => some s

/-- Integer field rendered inside the include query. -/
def fvIntOpt : FieldVal Int → Option String
  | .unset => Option.none
  | .none => some "None"
  | .val n => some (toString n)

/-- `default(str, field, "", none=UNSET)`: empty string when unset,
otherwise `str(field)`. -/
def fvText : FieldVal String → String
  | .unset => ""
  | .none => "None"
  | .val s => s

/-- The parts joined by `Windows._include` into the WinTitle query string. -/
def Windows.includeParts (f : Windows) : List String :=
  (fvStrOpt f.title).toList ++
  ((fvStrOpt f.class_name).map (fun s => "ahk_class " ++ s)).toList ++
  ((fvIntOpt f.id).map (fun s => "ahk_id " ++ s)).toList ++
  ((fvIntOpt f.pid).map (fun s => "ahk_pid " ++ s)).toList ++
  ((fvStrOpt f.exe).map (fun s => "ahk_exe " ++ s)).toList

/-- `Windows._include`: the two positional include arguments. -/
def Windows.includeArgs (f : Windows) : List PyVal :=
  [.str (String.intercalate " " f.includeParts), .str (fvText f.text)]

/-- `Windows._exclude`: the two positional exclude arguments. -/
def Windows.excludeArgs (f : Windows) : List PyVal :=
  [.str (fvText f.exclude_title), .str (fvText f.exclude_text)]

/-- `Windows._query`. -/
def Windows.queryArgs (f : Windows) : List PyVal :=
  f.includeArgs ++ f.excludeArgs

/-- Python truthiness of a bool-valued field: the `UNSET` marker object is
truthy, `None` is falsy. -/
def fvTruthy : FieldVal Bool → Bool
  | .unset => true
  | .none => false
  | .val b => b

/-- Whether a field is an explicit Python `None`. -/
def isNoneFV {α : Type} : FieldVal α → Bool
  | .none => true
  | _ => false

/-- The guard at the top of `Windows._call`: some include field is an
explicit `None` (querying a non-existent window's attributes). -/
def Windows.hasNoneInclude (f : Windows) : Bool :=
  isNoneFV f.title || isNoneFV f.class_name || isNoneFV f.id ||
  isNoneFV f.pid || isNoneFV f.exe || isNoneFV f.text

/-- The `SetTitleMatchMode` dispatch chosen from the `title_mode` field in
`Windows._call`, or the `ValueError` raised on an unrecognized mode. -/
def titleModeCall : FieldVal TitleMatchMode → Except String Call
  | .unset => .ok ("SetTitleMatchMode", [.int 1])
  | .val .startswith => .ok ("SetTitleMatchMode", [.int 1])
  | .val .contains => .ok ("SetTitleMatchMode", [.int 2])
  | .val .exact => .ok ("SetTitleMatchMode", [.int 3])
  | .val .regex => .ok ("SetTitleMatchMode", [.str "regex"])
  | .none => .error "unknown title match mode"

/-- The text-speed dispatch chosen from the `text_mode` field in
`Windows._call` (the source issues it through `SetTitleMatchMode`). -/
def textModeCall : FieldVal TextMatchMode → Except String Call
  | .unset => .ok ("SetTitleMatchMode", [.str "fast"])
  | .val .fast => .ok ("SetTitleMatchMode", [.str "fast"])
  | .val .slow => .ok ("SetTitleMatchMode", [.str "slow"])
  | .none => .error "unknown text match mode"

/-- `Windows._call`: abandons the dispatch (returning Python `None` with no
host interaction) when an include field is an explicit `None`; otherwise
applies the host-global search settings and dispatches the command.
Returns the trace of dispatched host calls and the result. -/
def Windows.call (f : Windows) (h : Host) (cmd : String) (args : List PyVal)
    (set_delay : Bool) : List Call × Except String PyVal :=
  if f.hasNoneInclude then
    ([], .ok .none)
  else
    let t1 : List Call :=
      [("DetectHiddenWindows", [.str (if fvTruthy f.exclude_hidden_windows then "Off" else "On")])]
    let t2 : List Call :=
      if f.text = FieldVal.unset then []
      else [("DetectHiddenText", [.str (if fvTruthy f.exclude_hidden_text then "Off" else "On")])]
    match titleModeCall f.title_mode with
    | .error e => (t1 ++ t2, .error e)
    | .ok c3 =>
      match textModeCall f.text_mode with
      | .error e => (t1 ++ t2 ++ [c3], .error e)
      | .ok c4 =>
        let t5 : List Call := if set_delay then [("SetWinDelay", [h.winDelay])] else []
        (t1 ++ t2 ++ [c3, c4] ++ t5 ++ [(cmd, args)], .ok (h.call cmd args))

/-- The frozen dataclass `_Window`/`Window`: an entity handle. -/
structure Window where
  id : Int
deriving DecidableEq

/-- The `Control` subclass of `_Window`. -/
structure Control where
  id : Int
deriving DecidableEq

/-- `_Window.__bool__`. -/
def Window.toBool (w : Window) : Bool := w.id != 0

/-- `_Window.__bool__` for controls. -/
def Control.toBool (c : Control) : Bool := c.id != 0

/-- Extraction of the integer window id from a host response
(`Window(win_id)`; host window ids are integers). -/
def pyWinId : PyVal → Int
  | .int n => n
  | _ => 0

/-- `Windows.exist` (after the `filtering` narrowing step):
`Window(self._call("WinExist", *self._query()) or 0)`. -/
def Windows.exist (f : Windows) (h : Host) : List Call × Except String Window :=
  let r := f.call h "WinExist" f.queryArgs false
  (r.1, r.2.map (fun v => ⟨pyWinId (pyOr v (.int 0))⟩))

/-- `Windows._wait`: dispatches the wait command, returns `Window(0)` when
the call was abandoned (`None`) or timed out (truthy), otherwise fetches the
Last Found Window through `windows.first()`. -/
def Windows.waitCmd (f : Windows) (h : Host) (cmd : String) (timeout : PyVal) :
    List Call × Except String Window :=
  let r := f.call h cmd (f.includeArgs ++ [pyOr timeout (.str "")] ++ f.excludeArgs) true
  match r with
  | (tr, .error e) => (tr, .error e)
  | (tr, .ok .none) => (tr, .ok ⟨0⟩)
  | (tr, .ok v) =>
    if pyTruthy v then (tr, .ok ⟨0⟩)
    else
      let r2 := windows.exist h
      (tr ++ r2.1, r2.2)

/-- `Windows.wait`. -/
def Windows.wait (f : Windows) (h : Host) (timeout : PyVal) :
    List Call × Except String Window :=
  f.waitCmd h "WinWait" timeout

/-- `Windows.wait_active`. -/
def Windows.wait_active (f : Windows) (h : Host) (timeout : PyVal) :
    List Call × Except String Window :=
  f.waitCmd h "WinWaitActive" timeout

/-- `Windows.wait_inactive`. -/
def Windows.wait_inactive (f : Windows) (h : Host) (timeout : PyVal) :
    List Call × Except String Window :=
  f.waitCmd h "WinWaitNotActive" timeout

/-- Deterministic stand-in for CPython's `hash` of a string.  CPython's hash
is implementation-defined; the dataclass-generated `__hash__` is in any case
a deterministic function of the tuple of field values, which is the only
property the code relies on. -/
def hashString (s : String) : Int :=
  s.foldl (fun a c => a * 131 + Int.ofNat c.toNat) 7

/-- Hash of one three-valued field. -/
def hashFV {α : Type} (g : α → Int) : FieldVal α → Int
  | .unset => 2
  | .none => 3
  | .val a => 5 + g a

/-- Numeric code of a title-match mode, for hashing. -/
def tmmCode : TitleMatchMode → Int
  | .startswith => 0
  | .contains => 1
  | .exact => 2
  | .regex => 3

/-- Numeric code of a text-match mode, for hashing. -/
def texmCode : TextMatchMode → Int
  | .fast => 0
  | .slow => 1

/-- Stand-in for `hash(self)` on the frozen dataclass `Windows`: a
deterministic signed integer computed from the tuple of field values
(CPython hashes are signed and may be negative). -/
def pyHash (f : Windows) : Int :=
  ([hashFV hashString f.title, hashFV hashString f.class_name,
    hashFV (fun n => n) f.id, hashFV (fun n => n) f.pid,
    hashFV hashString f.exe, hashFV hashString f.text,
    hashFV hashString f.exclude_title, hashFV hashString f.exclude_text,
    hashFV (fun b => if b then 1 else 0) f.exclude_hidden_windows,
    hashFV (fun b => if b then 1 else 0) f.exclude_hidden_text,
    hashFV tmmCode f.title_mode,
    hashFV texmCode f.text_mode].foldl (fun a x => a * 1000003 + x) 0) -
  2305843009213693951

/-- `str(hash(self)).replace("-", "m")`: the temporary group name derived
from the filter's hash, with `-` substituted because AHK does not allow it
in group names. -/
def groupName (f : Windows) : String :=
  (toString (pyHash f)).replace "-" "m"

/-- `Windows._group_action`: special-cases `WinMinimize` on the fully
unconstrained filter into `WinMinimizeAll`; otherwise registers a temporary
group named after the filter's hash and applies the command to it, checking
`exist` afterwards when a timeout was given. -/
def Windows.groupAction (f : Windows) (h : Host) (cmd : String) (timeout : PyVal) :
    List Call × Except String PyVal :=
  if f = windows ∧ cmd = "WinMinimize" then
    let r := f.call h "WinMinimizeAll" [] true
    (r.1, r.2.map (fun _ => .none))
  else
    let name := groupName f
    let r1 := f.call h "GroupAdd" ([.str name] ++ f.includeArgs ++ [.str ""] ++ f.excludeArgs) false
    match r1 with
    | (t1, .error e) => (t1, .error e)
    | (t1, .ok _) =>
      let r2 := f.call h cmd [.str ("ahk_group " ++ name), .str "", timeout] true
      match r2 with
      | (t2, .error e) => (t1 ++ t2, .error e)
      | (t2, .ok _) =>
        match timeout with
        | .none => (t1 ++ t2, .ok .none)
        | _ =>
          let r3 := f.exist h
          (t1 ++ t2 ++ r3.1, r3.2.map (fun w => .bool (!w.toBool)))

/-- `Windows.close_all`. -/
def Windows.close_all (f : Windows) (h : Host) (timeout : PyVal) :
    List Call × Except String PyVal :=
  f.groupAction h "WinClose" timeout

/-- `Windows.hide_all`. -/
def Windows.hide_all (f : Windows) (h : Host) : List Call × Except String PyVal :=
  f.groupAction h "WinHide" .none

/-- `Windows.minimize_all`. -/
def Windows.minimize_all (f : Windows) (h : Host) : List Call × Except String PyVal :=
  f.groupAction h "WinMinimize" .none

/-- `_Window._call`: a no-op returning `None` when the id is zero (optional
chaining); otherwise sets hidden-window detection and optionally the window
delay, then dispatches. -/
def winCall (h : Host) (id : Int) (cmd : String) (args : List PyVal)
    (exclude_hidden_windows : Bool) (set_delay : Bool) : List Call × PyVal :=
  if id = 0 then
    ([], .none)
  else
    ([("DetectHiddenWindows", [.str (if exclude_hidden_windows then "Off" else "On")])] ++
       (if set_delay then [("SetWinDelay", [h.winDelay])] else []) ++ [(cmd, args)],
     h.call cmd args)

/-- `_Window._include` for a window. -/
def Window.includeArgs (w : Window) : List PyVal :=
  [.str ("ahk_id " ++ toString w.id), .str ""]

/-- `_Window._include` for a control. -/
def Control.includeArgs (c : Control) : List PyVal :=
  [.str ("ahk_id " ++ toString c.id), .str ""]

/-- Normalization used by the `rect` getter: a host-reported empty string
becomes `None`, anything else passes through. -/
def blankNone : PyVal → PyVal
  | .str "" => .none
  | v => v

/-- Entries of a dict-valued host response. -/
def dictEntries : PyVal → List (String × PyVal)
  | .dict es => es
  | _ => []

/-- `Window.rect` getter: one `WinGetPos` dispatch; all-`None` tuple when
the call produced no result; each empty-string coordinate normalized to
`None`.  A malformed dict response (a key missing) is a `KeyError`. -/
def Window.rect (w : Window) (h : Host) :
    List Call × Except String (PyVal × PyVal × PyVal × PyVal) :=
  let r := winCall h w.id "WinGetPos" w.includeArgs false true
  match r with
  | (tr, .none) => (tr, .ok (.none, .none, .none, .none))
  | (tr, v) =>
    match List.lookup "X" (dictEntries v), List.lookup "Y" (dictEntries v),
        List.lookup "Width" (dictEntries v), List.lookup "Height" (dictEntries v) with
    | some x, some y, some wd, some ht =>
      (tr, .ok (blankNone x, blankNone y, blankNone wd, blankNone ht))
    | _, _, _, _ => (tr, .error "KeyError")

/-- `Window.exists`: `bool(self._call("WinExist", *self._include()))`. -/
def Window.exists (w : Window) (h : Host) : List Call × Bool :=
  let r := winCall h w.id "WinExist" w.includeArgs false true
  (r.1, pyTruthy r.2)

/-- `Window.class_name` getter: `None` when the host reports the
empty-string sentinel. -/
def Window.class_name (w : Window) (h : Host) : List Call × PyVal :=
  let r := winCall h w.id "WinGetClass" w.includeArgs false true
  match r with
  | (tr, .str "") => (tr, .none)
  | (tr, v) => (tr, v)

/-- `Window.text` getter on the non-raising host path. -/
def Window.text (w : Window) (h : Host) : List Call × PyVal :=
  winCall h w.id "WinGetText" w.includeArgs false true

/-- `Window.title` getter: fetches the title, then separately checks
existence; returns `None` when the window does not exist. -/
def Window.title (w : Window) (h : Host) : List Call × PyVal :=
  let r1 := winCall h w.id "WinGetTitle" w.includeArgs false true
  let r2 := w.exists h
  (r1.1 ++ r2.1, if r2.2 then r1.2 else .none)

/-- `Window._get`: a `WinGet` subcommand dispatch with the empty-string
sentinel mapped to `None`. -/
def Window.get (w : Window) (h : Host) (subcmd : String) : List Call × PyVal :=
  let r := winCall h w.id "WinGet" ([.str subcmd] ++ w.includeArgs) false true
  match r with
  | (tr, .str "") => (tr, .none)
  | (tr, v) => (tr, v)

/-- `Window.pid` getter. -/
def Window.pid (w : Window) (h : Host) : List Call × PyVal :=
  w.get h "PID"

/-- `Window.style` getter (the `WindowStyle` IntFlag wrapper carries the
same integer value, so the value is kept as returned). -/
def Window.style (w : Window) (h : Host) : List Call × PyVal :=
  w.get h "Style"

/-- `Window._set`. -/
def Window.setCmd (w : Window) (h : Host) (subcmd : String) (value : PyVal) :
    List Call × PyVal :=
  winCall h w.id "WinSet" ([.str subcmd, value] ++ w.includeArgs) false true

/-- The argument accepted by the opacity setter: `None` or a number. -/
inductive OpacityArg where
  | none
  | num (q : Rat)

/-- Python `int()` on a number: truncation toward zero. -/
def pyInt (q : Rat) : Int :=
  if 0 ≤ q then Int.floor q else Int.ceil q

/-- `Window.opacity` setter: `None` becomes the host token `"Off"`, an
out-of-range number raises `ValueError` before anything is dispatched, an
in-range number is truncated to an integer and passed through. -/
def Window.opacitySet (w : Window) (h : Host) (value : OpacityArg) :
    Except String (List Call × PyVal) :=
  match value with
  | .none => .ok (w.setCmd h "Transparent" (.str "Off"))
  | .num q =>
    if ¬ (0 ≤ q ∧ q ≤ 255) then .error "opacity value must be between 0 and 255"
    else .ok (w.setCmd h "Transparent" (.int (pyInt q)))

/-- `Window.wait_active`: `False` when the dispatch was skipped (id 0),
otherwise the negation of the timed-out flag. -/
def Window.wait_active (w : Window) (h : Host) (timeout : PyVal) : List Call × PyVal :=
  let r := winCall h w.id "WinWaitActive" (w.includeArgs ++ [timeout]) false true
  match r with
  | (tr, .none) => (tr, .bool false)
  | (tr, v) => (tr, .bool (!pyTruthy v))

/-- `Window.wait_inactive`: `True` when the dispatch was skipped (id 0). -/
def Window.wait_inactive (w : Window) (h : Host) (timeout : PyVal) : List Call × PyVal :=
  let r := winCall h w.id "WinWaitNotActive" (w.includeArgs ++ [timeout]) false true
  match r with
  | (tr, .none) => (tr, .bool true)
  | (tr, v) => (tr, .bool (!pyTruthy v))

/-- The timeout argument marshaled by `wait_clipboard`
(`timeout = float(timeout)` when not `None`). -/
def clipTimeoutArg : Option Rat → PyVal
  | Option.none => .none
  | some q => .float q

/-- `get_clipboard`. -/
def get_clipboard (h : Host) : List Call × PyVal :=
  ([("GetVar", [.str "Clipboard"])], h.call "GetVar" [.str "Clipboard"])

/-- `wait_clipboard`: dispatches `ClipWait`; on failure returns the empty
string, on success re-reads the clipboard through `get_clipboard`. -/
def wait_clipboard (h : Host) (timeout : Option Rat) : List Call × PyVal :=
  let t := clipTimeoutArg timeout
  let ok := h.call "ClipWait" [t]
  if !pyTruthy ok then
    ([("ClipWait", [t])], .str "")
  else
    let r := get_clipboard h
    ([("ClipWait", [t])] ++ r.1, r.2)

/-- Commands that apply host-global settings rather than querying or acting
on a window. -/
def isSetupCmd (c : String) : Bool :=
  c = "DetectHiddenWindows" || c = "DetectHiddenText" ||
  c = "SetTitleMatchMode" || c = "SetWinDelay"

/-- Number of non-setup host dispatches (actual queries/actions) in a trace. -/
def queryCount (tr : List Call) : Nat :=
  (tr.filter (fun e => !isSetupCmd e.1)).length

/-- A concrete host used to instantiate hypotheses at explicit inputs. -/
def sampleHost : Host :=
  ⟨fun cmd _ =>
    if cmd = "WinGetTitle" then .str "Untitled - Notepad"
    else if cmd = "WinExist" then .int 42
    else if cmd = "WinGetClass" then .str "Notepad"
    else .str "",
   .int 100⟩

/-- A concrete host whose clipboard holds text. -/
def clipHostFull : Host :=
  ⟨fun cmd _ =>
    if cmd = "ClipWait" then .int 1
    else if cmd = "GetVar" then .str "hello"
    else .none,
   .int 100⟩

/-- A concrete host whose clipboard stays empty (the wait times out). -/
def clipHostEmpty : Host :=
  ⟨fun cmd _ => if cmd = "ClipWait" then .int 0 else .str "", .int 100⟩

/-- A concrete host reporting a window position with an empty Width. -/
def posHost : Host :=
  ⟨fun cmd _ =>
    if cmd = "WinGetPos" then
      .dict [("X", .int 10), ("Y", .int 20), ("Width", .str ""), ("Height", .int 40)]
    else .none,
   .int 100⟩

/-- Claim C3: when some include field of a `Windows` filter is an explicit
`None`, every query operation abandons the dispatch: no host call is made
(empty trace), `_call` returns `None`, and `exist`/the wait family return a
`Window` with id 0 as an ordinary (non-error) result. -/
theorem c3_none_field_abandons_query (h : Host) (f : Windows)
    (hn : f.hasNoneInclude = true) :
    (∀ cmd args sd, f.call h cmd args sd = ([], .ok .none)) ∧
    f.exist h = ([], .ok ⟨0⟩) ∧
    (∀ timeout, f.wait h timeout = ([], .ok ⟨0⟩)) ∧
    (∀ timeout, f.wait_active h timeout = ([], .ok ⟨0⟩)) ∧
    (∀ timeout, f.wait_inactive h timeout = ([], .ok ⟨0⟩)) := by
  have hc : ∀ cmd args sd, f.call h cmd args sd = ([], .ok .none) := by
    intro cmd args sd
    simp [Windows.call, hn]
  refine ⟨hc, ?_, ?_, ?_, ?_⟩
  · simp [Windows.exist, hc, Except.map, pyOr, pyTruthy, pyWinId]
  · intro timeout
    simp [Windows.wait, Windows.waitCmd, hc]
  · intro timeout
    simp [Windows.wait_active, Windows.waitCmd, hc]
  · intro timeout
    simp [Windows.wait_inactive, Windows.waitCmd, hc]

/-- Claim C3, witness at a concrete input. -/
theorem c3_witness :
    ({ windows with exe := FieldVal.none } : Windows).hasNoneInclude = true ∧
    Windows.exist { windows with exe := FieldVal.none } sampleHost = ([], .ok ⟨0⟩) := by
  refine ⟨by decide, ?_⟩
  exact (c3_none_field_abandons_query sampleHost _ (by decide)).2.1

/-- Claim C4: narrowing a filter with every argument left unset returns the
filter unchanged (identity law). -/
theorem c4_filter_identity (f : Windows) :
    f.filter .unset .unset .unset .unset .unset .unset .unset = .ok f := rfl

/-- Claim C2, counterexample: on a non-zero handle the `title` getter
dispatches two host queries, not one — `WinGetTitle` followed by the
`WinExist` existence check. -/
theorem c2_title_two_queries :
    queryCount (Window.title ⟨42⟩ sampleHost).1 = 2 ∧
    ¬ queryCount (Window.title ⟨42⟩ sampleHost).1 = 1 := by
  constructor
  · rfl
  · intro hcontra
    simp [Window.title, Window.exists, winCall, queryCount, isSetupCmd, sampleHost,
      Window.includeArgs] at hcontra

/-- Claim C2 (amended): on a non-zero handle, the property getters `rect`,
`class_name`, `text`, `pid` and `style` each dispatch exactly one host query
(not counting the per-call host-global setting commands), while `title`
dispatches two (`WinGetTitle` plus an existence check); `class_name` and the
`WinGet`-based getters (`pid`, `style`) return `None` when the host signals
"not found" through the empty-string sentinel. -/
theorem c2_getter_query_counts (h : Host) (w : Window) (hw : w.id ≠ 0) :
    queryCount (Window.rect w h).1 = 1 ∧
    queryCount (Window.class_name w h).1 = 1 ∧
    queryCount (Window.text w h).1 = 1 ∧
    queryCount (Window.pid w h).1 = 1 ∧
    queryCount (Window.style w h).1 = 1 ∧
    queryCount (Window.title w h).1 = 2 ∧
    (h.call "WinGetClass" w.includeArgs = .str "" → (Window.class_name w h).2 = .none) ∧
    (h.call "WinGet" ([.str "PID"] ++ w.includeArgs) = .str "" → (Window.pid w h).2 = .none) ∧
    (h.call "WinGet" ([.str "Style"] ++ w.includeArgs) = .str "" → (Window.style w h).2 = .none) := by
  have hq : ∀ cmd args eh sd, isSetupCmd cmd = false →
      queryCount (winCall h w.id cmd args eh sd).1 = 1 := by
    intro cmd args eh sd hcmd
    cases sd <;> simp [winCall, hw, queryCount, isSetupCmd, hcmd] <;>
      simp_all [isSetupCmd]
  refine ⟨?_, ?_, ?_, ?_, ?_, ?_, ?_, ?_, ?_⟩
  · have h1 := hq "WinGetPos" w.includeArgs false true (by decide)
    unfold Window.rect
    rcases hr : winCall h w.id "WinGetPos" w.includeArgs false true with ⟨tr, v⟩
    rw [hr] at h1
    cases v <;> simp_all <;>
      rcases List.lookup "X" (dictEntries _) with _ | x <;>
      rcases List.lookup "Y" (dictEntries _) with _ | y <;>
      rcases List.lookup "Width" (dictEntries _) with _ | wd <;>
      rcases List.lookup "Height" (dictEntries _) with _ | ht <;> simp_all
  · have h1 := hq "WinGetClass" w.includeArgs false true (by decide)
    unfold Window.class_name
    rcases hr : winCall h w.id "WinGetClass" w.includeArgs false true with ⟨tr, v⟩
    rw [hr] at h1
    cases v <;> simp_all <;> split <;> simp_all
  · exact hq "WinGetText" w.includeArgs false true (by decide)
  · have h1 := hq "WinGet" ([.str "PID"] ++ w.includeArgs) false true (by decide)
    unfold Window.pid Window.get
    rcases hr : winCall h w.id "WinGet" ([.str "PID"] ++ w.includeArgs) false true with ⟨tr, v⟩
    rw [hr] at h1
    cases v <;> simp_all <;> split <;> simp_all
  · have h1 := hq "WinGet" ([.str "Style"] ++ w.includeArgs) false true (by decide)
    unfold Window.style Window.get
    rcases hr : winCall h w.id "WinGet" ([.str "Style"] ++ w.includeArgs) false true with ⟨tr, v⟩
    rw [hr] at h1
    cases v <;> simp_all <;> split <;> simp_all
  · have h1 := hq "WinGetTitle" w.includeArgs false true (by decide)
    have h2 := hq "WinExist" w.includeArgs false true (by decide)
    simp [Window.title, Window.exists, queryCount] at h1 h2 ⊢
    omega
  · intro hcall
    simp [Window.class_name, winCall, hw, hcall]
  · intro hcall
    simp only [List.singleton_append] at hcall
    simp [Window.pid, Window.get, winCall, hw, hcall]
  · intro hcall
    simp only [List.singleton_append] at hcall
    simp [Window.style, Window.get, winCall, hw, hcall]

/-- Claim C2, witness at a concrete input. -/
theorem c2_witness :
    ((⟨42⟩ : Window).id ≠ 0) ∧ queryCount (Window.rect ⟨42⟩ sampleHost).1 = 1 := by
  exact ⟨by decide, (c2_getter_query_counts sampleHost ⟨42⟩ (by decide)).1⟩

/-- Claim C5: filters are compared and hashed structurally, so two filters
with the same final field values — however they were built — are equal, hash
identically, derive the same host group name, and their group-batch actions
dispatch identical call sequences. -/
theorem c5_structural_equality (f1 f2 : Windows)
    (h1 : f1.title = f2.title) (h2 : f1.class_name = f2.class_name)
    (h3 : f1.id = f2.id) (h4 : f1.pid = f2.pid)
    (h5 : f1.exe = f2.exe) (h6 : f1.text = f2.text)
    (h7 : f1.exclude_title = f2.exclude_title) (h8 : f1.exclude_text = f2.exclude_text)
    (h9 : f1.exclude_hidden_windows = f2.exclude_hidden_windows)
    (h10 : f1.exclude_hidden_text = f2.exclude_hidden_text)
    (h11 : f1.title_mode = f2.title_mode) (h12 : f1.text_mode = f2.text_mode) :
    f1 = f2 ∧ pyHash f1 = pyHash f2 ∧ groupName f1 = groupName f2 ∧
    ∀ h cmd timeout, f1.groupAction h cmd timeout = f2.groupAction h cmd timeout := by
  obtain rfl : f1 = f2 := by
    cases f1
    cases f2
    simp_all
  exact ⟨rfl, rfl, rfl, fun _ _ _ => rfl⟩

/-- First build sequence for the C5 witness:
`windows.filter(title="np").exclude(title="bad").filter(class_name="Notepad")`. -/
def seqA : Except String Windows :=
  (windows.filter (FieldVal.val "np") .unset .unset .unset .unset .unset .unset).bind
    (fun f => (f.exclude (FieldVal.val "bad") .unset .unset .unset).filter
      .unset (FieldVal.val "Notepad") .unset .unset .unset .unset .unset)

/-- Second build sequence for the C5 witness:
`windows.filter(class_name="Notepad").filter(title="np").exclude(title="bad")`. -/
def seqB : Except String Windows :=
  ((windows.filter .unset (FieldVal.val "Notepad") .unset .unset .unset .unset .unset).bind
    (fun f => f.filter (FieldVal.val "np") .unset .unset .unset .unset .unset .unset)).map
    (fun g => g.exclude (FieldVal.val "bad") .unset .unset .unset)

/-- The common value of both C5 build sequences. -/
def seqAB : Windows :=
  { windows with
    title := FieldVal.val "np",
    class_name := FieldVal.val "Notepad",
    exclude_title := FieldVal.val "bad" }

/-- Claim C5, witness: the two build sequences produce the same filter value,
and at that value equality, hash and group name coincide. -/
theorem c5_witness :
    seqA = .ok seqAB ∧ seqB = .ok seqAB ∧
    seqAB = seqAB ∧ pyHash seqAB = pyHash seqAB ∧ groupName seqAB = groupName seqAB := by
  have h := c5_structural_equality seqAB seqAB rfl rfl rfl rfl rfl rfl rfl rfl rfl rfl rfl rfl
  exact ⟨rfl, rfl, h.1, h.2.1, h.2.2.1⟩

/-- Claim C6: `wait_clipboard` dispatches `ClipWait`; when the host reports
success it re-reads the clipboard through `get_clipboard` and returns that
text, and when the host reports failure (timeout) it returns the empty
string without re-reading. -/
theorem c6_wait_clipboard (h : Host) (timeout : Option Rat) :
    (pyTruthy (h.call "ClipWait" [clipTimeoutArg timeout]) = true →
      wait_clipboard h timeout =
        ([("ClipWait", [clipTimeoutArg timeout]), ("GetVar", [.str "Clipboard"])],
         h.call "GetVar" [.str "Clipboard"])) ∧
    (pyTruthy (h.call "ClipWait" [clipTimeoutArg timeout]) = false →
      wait_clipboard h timeout = ([("ClipWait", [clipTimeoutArg timeout])], .str "")) := by
  constructor
  · intro hok
    simp [wait_clipboard, get_clipboard, hok]
  · intro hko
    simp [wait_clipboard, hko]

/-- Claim C6, witness: a populated clipboard with no timeout yields the text,
an empty clipboard with a short timeout yields `""`. -/
theorem c6_witness :
    wait_clipboard clipHostFull Option.none =
      ([("ClipWait", [PyVal.none]), ("GetVar", [.str "Clipboard"])], .str "hello") ∧
    wait_clipboard clipHostEmpty (some 1) = ([("ClipWait", [.float 1])], .str "") := by
  constructor
  · exact ((c6_wait_clipboard clipHostFull Option.none).1 rfl).trans rfl
  · exact (c6_wait_clipboard clipHostEmpty (some 1)).2 rfl

/-- Claim C7: the `rect` getter returns a 4-tuple; it is
`(None, None, None, None)` when the dispatch produced no result (zero id, or
the host returning `None` for a non-existent window), and each host-reported
empty-string coordinate is normalized to `None` while other values pass
through unchanged. -/
theorem c7_rect_normalization (h : Host) (w : Window) (x y wd ht : PyVal) :
    Window.rect ⟨0⟩ h = ([], .ok (.none, .none, .none, .none)) ∧
    (w.id ≠ 0 → h.call "WinGetPos" w.includeArgs = .none →
      (Window.rect w h).2 = .ok (.none, .none, .none, .none)) ∧
    (w.id ≠ 0 →
      h.call "WinGetPos" w.includeArgs = .dict [("X", x), ("Y", y), ("Width", wd), ("Height", ht)] →
      (Window.rect w h).2 = .ok (blankNone x, blankNone y, blankNone wd, blankNone ht)) ∧
    blankNone (.str "") = .none ∧
    (∀ n : Int, blankNone (.int n) = .int n) := by
  refine ⟨rfl, ?_, ?_, rfl, fun _ => rfl⟩
  · intro hw hcall
    simp [Window.rect, winCall, hw, hcall]
  · intro hw hcall
    simp [Window.rect, winCall, hw, hcall, dictEntries, List.lookup]

/-- Claim C7, witness: a live window whose host reports an empty Width. -/
theorem c7_witness :
    (Window.rect ⟨5⟩ posHost).2 = .ok (.int 10, .int 20, .none, .int 40) := by
  have h := (c7_rect_normalization posHost ⟨5⟩ (.int 10) (.int 20) (.str "") (.int 40)).2.2.1
    (by decide) rfl
  exact h.trans rfl

/-- A title-match mode that is not an explicit `None` always translates to a
`SetTitleMatchMode` dispatch. -/
theorem titleModeCall_ok (m : FieldVal TitleMatchMode) (hm : m ≠ FieldVal.none) :
    ∃ c, titleModeCall m = .ok c := by
  rcases m with _ | _ | mm
  · exact ⟨_, rfl⟩
  · exact absurd rfl hm
  · cases mm <;> exact ⟨_, rfl⟩

/-- A text-match mode that is not an explicit `None` always translates to a
speed dispatch. -/
theorem textModeCall_ok (m : FieldVal TextMatchMode) (hm : m ≠ FieldVal.none) :
    ∃ c, textModeCall m = .ok c := by
  rcases m with _ | _ | mm
  · exact ⟨_, rfl⟩
  · exact absurd rfl hm
  · cases mm <;> exact ⟨_, rfl⟩

/-- Normal form of `Windows._call` when the dispatch is not abandoned and
both match modes are recognized. -/
theorem windows_call_eq (f : Windows) (h : Host) (cmd : String) (args : List PyVal)
    (sd : Bool) (hv : f.hasNoneInclude = false) {c3 c4 : Call}
    (h3 : titleModeCall f.title_mode = .ok c3) (h4 : textModeCall f.text_mode = .ok c4) :
    f.call h cmd args sd =
      ([("DetectHiddenWindows",
          [.str (if fvTruthy f.exclude_hidden_windows then "Off" else "On")])] ++
        (if f.text = FieldVal.unset then []
          else [("DetectHiddenText",
            [.str (if fvTruthy f.exclude_hidden_text then "Off" else "On")])]) ++
        [c3, c4] ++ (if sd then [("SetWinDelay", [h.winDelay])] else []) ++ [(cmd, args)],
       .ok (h.call cmd args)) := by
  simp [Windows.call, hv, h3, h4]

/-- Claim C8: a group-batch action on any filter other than the special case
registers a temporary group named by the filter's hash with `-` substituted
(`groupName`), then applies the command to `ahk_group` that name; while
`minimize_all` on the fully unconstrained filter dispatches the host's
`WinMinimizeAll` ("minimize all except the desktop") and registers no group. -/
theorem c8_group_action (h : Host) (f : Windows) (cmd : String) (timeout : PyVal)
    (hne : ¬ (f = windows ∧ cmd = "WinMinimize"))
    (hv : f.hasNoneInclude = false)
    (hm : f.title_mode ≠ FieldVal.none) (hs : f.text_mode ≠ FieldVal.none) :
    (("GroupAdd", [.str (groupName f)] ++ f.includeArgs ++ [.str ""] ++ f.excludeArgs) ∈
      (f.groupAction h cmd timeout).1) ∧
    ((cmd, [.str ("ahk_group " ++ groupName f), .str "", timeout]) ∈
      (f.groupAction h cmd timeout).1) ∧
    (∀ h2 : Host, windows.groupAction h2 "WinMinimize" .none =
      ([("DetectHiddenWindows", [.str "Off"]), ("SetTitleMatchMode", [.int 1]),
        ("SetTitleMatchMode", [.str "fast"]), ("SetWinDelay", [h2.winDelay]),
        ("WinMinimizeAll", [])], .ok .none)) ∧
    (∀ (h2 : Host) (c : Call),
      c ∈ (windows.groupAction h2 "WinMinimize" PyVal.none).1 → c.1 ≠ "GroupAdd") := by
  obtain ⟨c3, h3⟩ := titleModeCall_ok _ hm
  obtain ⟨c4, h4⟩ := textModeCall_ok _ hs
  have hmin : ∀ h2 : Host, windows.groupAction h2 "WinMinimize" PyVal.none =
      ([("DetectHiddenWindows", [.str "Off"]), ("SetTitleMatchMode", [.int 1]),
        ("SetTitleMatchMode", [.str "fast"]), ("SetWinDelay", [h2.winDelay]),
        ("WinMinimizeAll", [])], .ok .none) := fun h2 => rfl
  have e1 := windows_call_eq f h "GroupAdd"
    ([PyVal.str (groupName f)] ++ f.includeArgs ++ [PyVal.str ""] ++ f.excludeArgs)
    false hv h3 h4
  have e2 := windows_call_eq f h cmd
    [PyVal.str ("ahk_group " ++ groupName f), PyVal.str "", timeout] true hv h3 h4
  refine ⟨?_, ?_, hmin, ?_⟩
  · unfold Windows.groupAction
    rw [if_neg hne]
    simp only [e1, e2]
    cases timeout <;> simp
  · unfold Windows.groupAction
    rw [if_neg hne]
    simp only [e1, e2]
    cases timeout <;> simp
  · intro h2 c hc
    rw [hmin h2] at hc
    simp at hc
    rcases hc with rfl | rfl | rfl | rfl | rfl <;> simp

/-- A concrete constrained filter used by witnesses. -/
def notepadFilter : Windows :=
  { windows with title := FieldVal.val "np" }

/-- Claim C8, witness: `close_all` on a concrete constrained filter registers
the group named by the filter's hash. -/
theorem c8_witness :
    ¬ (notepadFilter = windows ∧ "WinClose" = "WinMinimize") ∧
    (("GroupAdd", [.str (groupName notepadFilter)] ++ notepadFilter.includeArgs ++
        [.str ""] ++ notepadFilter.excludeArgs) ∈
      (notepadFilter.groupAction sampleHost "WinClose" PyVal.none).1) := by
  refine ⟨by decide, ?_⟩
  exact (c8_group_action sampleHost notepadFilter "WinClose" PyVal.none (by decide)
    (by decide) (by decide) (by decide)).1

/-- Claim C9: the `match` mode name is parsed case-insensitively (filtering
with `"EXACT"` and `"exact"`, or `"CONTAINS"` and `"contains"`, produces the
same filter), and before each dispatch the `exact` and `contains` modes are
translated to the host's numeric title-match codes 3 and 2. -/
theorem c9_title_match_modes (f : Windows) (h : Host) :
    f.filter .unset .unset .unset .unset .unset .unset (MatchArg.str "EXACT") =
      f.filter .unset .unset .unset .unset .unset .unset (MatchArg.str "exact") ∧
    f.filter .unset .unset .unset .unset .unset .unset (MatchArg.str "CONTAINS") =
      f.filter .unset .unset .unset .unset .unset .unset (MatchArg.str "contains") ∧
    titleModeCall (FieldVal.val .exact) = .ok ("SetTitleMatchMode", [.int 3]) ∧
    titleModeCall (FieldVal.val .contains) = .ok ("SetTitleMatchMode", [.int 2]) ∧
    (∀ cmd args sd, ("SetTitleMatchMode", ([.int 3] : List PyVal)) ∈
      (Windows.call { windows with title_mode := FieldVal.val .exact } h cmd args sd).1) ∧
    (∀ cmd args sd, ("SetTitleMatchMode", ([.int 2] : List PyVal)) ∈
      (Windows.call { windows with title_mode := FieldVal.val .contains } h cmd args sd).1) := by
  refine ⟨rfl, rfl, rfl, rfl, ?_, ?_⟩
  · intro cmd args sd
    rw [windows_call_eq { windows with title_mode := FieldVal.val .exact }
      h cmd args sd rfl rfl rfl]
    cases sd <;> simp
  · intro cmd args sd
    rw [windows_call_eq { windows with title_mode := FieldVal.val .contains }
      h cmd args sd rfl rfl rfl]
    cases sd <;> simp

/-- Claim C10: setting `opacity` to an out-of-range number raises
`ValueError` with nothing dispatched; setting it to `None` dispatches the
host token `"Off"`; an in-range number is truncated to an integer and passed
through (`pyInt` is truncation toward zero, the identity on integers). -/
theorem c10_opacity_setter (h : Host) (w : Window) (q : Rat) (hw : w.id ≠ 0) :
    (¬ (0 ≤ q ∧ q ≤ 255) →
      Window.opacitySet w h (.num q) = .error "opacity value must be between 0 and 255") ∧
    (Window.opacitySet w h OpacityArg.none =
      .ok ([("DetectHiddenWindows", [.str "On"]), ("SetWinDelay", [h.winDelay]),
        ("WinSet", [.str "Transparent", .str "Off"] ++ w.includeArgs)],
        h.call "WinSet" ([.str "Transparent", .str "Off"] ++ w.includeArgs))) ∧
    (0 ≤ q ∧ q ≤ 255 →
      Window.opacitySet w h (.num q) =
      .ok ([("DetectHiddenWindows", [.str "On"]), ("SetWinDelay", [h.winDelay]),
        ("WinSet", [.str "Transparent", .int (pyInt q)] ++ w.includeArgs)],
        h.call "WinSet" ([.str "Transparent", .int (pyInt q)] ++ w.includeArgs))) ∧
    (∀ n : Int, pyInt (n : Rat) = n) ∧
    pyInt (101 / 2 : Rat) = 50 := by
  refine ⟨?_, ?_, ?_, ?_, ?_⟩
  · intro hq
    simp only [Window.opacitySet]
    rw [if_pos hq]
  · simp [Window.opacitySet, Window.setCmd, winCall, hw]
  · intro hq
    simp only [Window.opacitySet]
    rw [if_neg (not_not_intro hq)]
    simp [Window.setCmd, winCall, hw]
  · intro n
    unfold pyInt
    split <;> simp
  · norm_num [pyInt]

/-- Claim C10, witness: opacity 300 on a live window raises. -/
theorem c10_witness :
    ((⟨9⟩ : Window).id ≠ 0) ∧
    Window.opacitySet ⟨9⟩ sampleHost (.num 300) =
      .error "opacity value must be between 0 and 255" := by
  have H := c10_opacity_setter sampleHost ⟨9⟩ 300 (by decide)
  refine ⟨by decide, H.1 ?_⟩
  norm_num
